import Mathlib

/-!
# System Sentinel — dashboard client verification

Shallow embedding of `src/dashboard.js` (the React dashboard client of the
system-sentinel repository) together with a spec-modelled fragment of the
backend alert dispatcher.  The client keeps three pieces of React state
(`data`, `error`, `loading`), fetches `GET /api/current`, classifies failure
responses, offers a privilege-escalation retry via `/retry_with_admin`, and
renders the latest snapshot.  JavaScript `fetch`/`await` effects are embedded
as explicit values: a `Response` carries the `ok` flag, the numeric `status`,
and the outcome of `response.json()` as an `Except` (a JSON parse failure is
the `.error` case carrying the exception's message).  The `try/catch/finally`
block of `fetchData` becomes a total function on the state record.
-/

namespace SystemSentinel

/-- The `analysis` object of a parsed `/api/current` body: `status` string and
ordered `warnings` list (spec §6 response shape). -/
structure Analysis where
  status : String
  warnings : List String
deriving Repr, DecidableEq

/-- A parsed JSON body as the client reads it.  JavaScript is duck-typed, so we
record exactly the fields `dashboard.js` accesses: the truthiness of
`suggest_admin` (line 44), `diagnostics.system_info` (line 114, `Option`
models a missing/falsy field, handled there by `|| {}`), `diagnostics.metrics`
(present in the server's response shape but never accessed by the client), and
the optional `analysis` object (guarded by `data.analysis &&` at line 123). -/
structure JsonBody where
  suggest_admin : Bool
  system_info : Option (List (String × String))
  metrics : List (String × Int)
  analysis : Option Analysis
deriving Repr, DecidableEq

/-- A `fetch` response as consumed by `fetchData`: `ok`, `status`, and the
result of awaiting `response.json()` — `.error m` when the body is not valid
JSON and the parse raises an exception whose message is `m`. -/
structure Response where
  ok : Bool
  status : Nat
  json : Except String JsonBody
deriving Repr

/-- The component state of `SystemMonitor`: `useState(null)` data,
`useState(null)` error, `useState(true)` loading. -/
structure DashState where
  data : Option JsonBody
  error : Option String
  loading : Bool
deriving Repr

/-- The initial component state (`dashboard.js` lines 32–34). -/
def dashInit : DashState := { data := none, error := none, loading := true }

/-- Error message thrown for the escalation signal (`dashboard.js` line 46). -/
def adminMsg : String := "Administrative privileges required"

/-- Error message thrown for other failed responses (`dashboard.js` line 48). -/
def fetchFailMsg : String := "Failed to fetch system data"

/-- Error message set when the escalation fetch throws (`dashboard.js` line 68). -/
def retryFailMsg : String := "Failed to obtain administrative access"

/-- The `try` block of `fetchData` (`dashboard.js` lines 37–53) up to the state
updates: `.ok b` is reaching line 52 with parsed body `b`, `.error m` is an
exception with message `m` reaching the `catch`.  The `||` of line 43–44
short-circuits: on a 401 the body is never parsed; on a 500 the parse runs
first, and a parse exception propagates before either message is chosen. -/
def fetchCaught (r : Response) : Except String JsonBody :=
  if r.ok = false then
    if r.status = 401 then Except.error adminMsg
    else if r.status = 500 then
      match r.json with
      | Except.error m => Except.error m
      | Except.ok b =>
        if b.suggest_admin then Except.error adminMsg else Except.error fetchFailMsg
    else Except.error fetchFailMsg
  else r.json

/-- The function `fetchData` (`dashboard.js` lines 36–59) as a state transformer: on the
success path `setData(result); setError(null)`; in `catch`,
`setError(err.message)` (data untouched); in `finally`, `setLoading(false)`.
Totality of this function embeds that no exception escapes the handler. -/
def fetchData (r : Response) (s : DashState) : DashState :=
  match fetchCaught r with
  | Except.ok b => { data := some b, error := none, loading := false }
  | Except.error m => { s with error := some m, loading := false }

/-- The two endpoints the client can request. -/
inductive Request where
  | apiCurrent
  | retryWithAdmin
deriving Repr, DecidableEq

/-- Number of occurrences of request `q` in a request trace. -/
def countReq (q : Request) (l : List Request) : Nat :=
  (l.filter fun x => decide (x = q)).length

/-- Variant of `fetchData` with its request trace: it performs exactly one
`fetch('/api/current')` (`dashboard.js` line 39). -/
def fetchDataT (r : Response) (s : DashState) : List Request × DashState :=
  ([Request.apiCurrent], fetchData r s)

/-- The `/retry_with_admin` response as consumed: only `.ok` is read. -/
structure RetryResponse where
  ok : Bool
deriving Repr, DecidableEq

/-- The function `handleRetryWithAdmin` (`dashboard.js` lines 61–70) with its request
trace.  `retry` is the outcome of `fetch('/retry_with_admin')` (`.error` when
the fetch itself throws); `cur` is the response the follow-up
`fetchData()` call would receive when it runs. -/
def handleRetryWithAdmin (retry : Except String RetryResponse) (cur : Response)
    (s : DashState) : List Request × DashState :=
  match retry with
  | Except.error _ => ([Request.retryWithAdmin], { s with error := some retryFailMsg })
  | Except.ok r2 =>
    if r2.ok then
      (Request.retryWithAdmin :: (fetchDataT cur s).1, (fetchDataT cur s).2)
    else ([Request.retryWithAdmin], s)

/-- JavaScript `String.prototype.includes` on lists of characters: `needle`
occurs as a contiguous run.  Checked position by position. -/
def charsPrefix : List Char → List Char → Bool
  | [], _ => true
  | _ :: _, [] => false
  | a :: as, b :: bs => a == b && charsPrefix as bs

/-- Whether `needle` occurs contiguously anywhere in `hay`. -/
def charsIncludes (needle : List Char) : List Char → Bool
  | [] => charsPrefix needle []
  | b :: bs => charsPrefix needle (b :: bs) || charsIncludes needle bs

/-- JavaScript substring test `s.includes(sub)` (`dashboard.js` line 93). -/
def jsIncludes (s sub : String) : Bool :=
  charsIncludes sub.data s.data

/-- One rendered fragment of the `SystemMonitor` component's output. -/
inductive RNode where
  | spinner
  | errorAlert (msg : String)
  | retryButton
  | heading (title : String)
  | infoEntry (key value : String)
  | statusLine (status : String)
  | warningsHeader
  | warningItem (idx : Nat) (text : String)
deriving Repr, DecidableEq

/-- Rendering of the `data.analysis` block (`dashboard.js` lines 123–140):
the status line always, the warnings list only when
`data.analysis.warnings?.length > 0`, each item keyed by its index. -/
def renderAnalysis (a : Analysis) : List RNode :=
  [RNode.heading "Analysis", RNode.statusLine a.status] ++
    (if a.warnings.length > 0 then
      RNode.warningsHeader :: (a.warnings.enum.map fun p => RNode.warningItem p.1 p.2)
    else [])

/-- Rendering of the success card body (`dashboard.js` lines 109–142):
`Object.entries(data.diagnostics.system_info || {})` then the analysis block
when `data.analysis` is present.  `diagnostics.metrics` is never accessed. -/
def renderData (b : JsonBody) : List RNode :=
  (RNode.heading "System Info" ::
    ((b.system_info.getD []).map fun kv => RNode.infoEntry kv.1 kv.2)) ++
  (match b.analysis with
   | none => []
   | some a => renderAnalysis a)

/-- The full render of `SystemMonitor` (`dashboard.js` lines 78–146): the
`loading` branch wins over `error`, which wins over the data card; the retry
button appears exactly under `error.includes('Administrative privileges')`. -/
def render (s : DashState) : List RNode :=
  if s.loading then [RNode.spinner]
  else
    match s.error with
    | some e =>
      RNode.errorAlert e ::
        (if jsIncludes e "Administrative privileges" then [RNode.retryButton] else [])
    | none =>
      match s.data with
      | some b => renderData b
      | none => []

/-- The warning texts appearing in a render, in render order. -/
def warningTexts (ns : List RNode) : List String :=
  ns.filterMap fun n =>
    match n with
    | RNode.warningItem _ t => some t
    | _ => none

/-- Replace the `diagnostics.metrics` field of a body, keeping the rest. -/
def setMetrics (b : JsonBody) (m : List (String × Int)) : JsonBody :=
  { b with metrics := m }

/-- The mount effect of `SystemMonitor` (`dashboard.js` lines 72–76):
`fetchData()` runs at mount time, `setInterval(fetchData, 5000)` schedules a
callback at `mountT + 5000·k` for every `k ≥ 1`, and the cleanup
`clearInterval` at unmount cancels every callback not yet fired.  With
millisecond times, `fetchFires mountT unmountT t = true` states that a
`/api/current` fetch starts at time `t` while the component is mounted on
`[mountT, unmountT)`. -/
def fetchFires (mountT unmountT t : Nat) : Bool :=
  (decide (t = mountT) && decide (mountT < unmountT)) ||
    (decide (mountT < t) && decide (t < unmountT) && decide ((t - mountT) % 5000 = 0))

/-- The CPU badge class of `SystemMonitorDashboard` (`dashboard.js` lines
197–205): red above the hardcoded 80, green otherwise. -/
def cpuBadgeClass (usage : Int) : String :=
  if usage > 80 then "bg-red-100 text-red-600" else "bg-green-100 text-green-600"

/-- The memory badge class of `SystemMonitorDashboard` (`dashboard.js` lines
220–228): red above the hardcoded 80, green otherwise. -/
def memoryBadgeClass (used : Int) : String :=
  if used > 80 then "bg-red-100 text-red-600" else "bg-green-100 text-green-600"

/-- A disk usage bar class of `SystemMonitorDashboard` (`dashboard.js` lines
278–293): red above the hardcoded 80, green otherwise. -/
def diskBarClass (usage : Int) : String :=
  if usage > 80 then "bg-red-500" else "bg-green-500"

/-- Threshold configuration (spec §3 and the repository README's `.env`
surface: `CPU_USAGE_MAX=90`, `MEMORY_USAGE_MAX=90`, `DISK_USAGE_MAX=90`,
`CPU_TEMP_MAX=85`).  The dashboard badge classes take no such argument. -/
structure Configuration where
  cpu_usage_max : Int
  memory_usage_max : Int
  disk_usage_max : Int
  cpu_temp_max : Int
deriving Repr, DecidableEq

/-- An `AnalysisResult` as the alert dispatcher consumes it: the set of
`(category, severity)` pairs currently at warning/critical (spec §3, §4.5). -/
structure SpecAnalysisResult where
  breaches : List (String × String)
deriving Repr, DecidableEq

/-- An `AlertRecord` (spec §3): `channel`, `message`, `dedup_key`
(category+severity), `sent_at`; never mutated after creation. -/
structure AlertRecord where
  channel : String
  message : String
  dedup_key : String × String
  sent_at : Nat
deriving Repr, DecidableEq

/-- Build one alert record for a newly breached `(category, severity)` pair. -/
def mkAlert (now : Nat) (p : String × String) : AlertRecord :=
  { channel := "default", message := p.1 ++ " is " ++ p.2, dedup_key := p, sent_at := now }

/-- Modelled from the spec: `AlertDispatcher.dispatch` — the backend alerts
module (`src/utils/alerts.py` in the repository README's layout) is not under
`src/`.  Spec §4.5: "Alerts fire only on *new* breaches relative to the
previous cycle's result (edge-triggered, not level-triggered) ... a
`(category, severity)` pair that was already warning/critical in `previous`
is suppressed until it clears and re-breaches", emitting deduplicated
`AlertRecord`s keyed by category+severity. -/
def dispatch (now : Nat) (result : SpecAnalysisResult)
    (previous : Option SpecAnalysisResult) : List AlertRecord :=
  let isNew : String × String → Bool := fun p =>
    match previous with
    | none => true
    | some pr => decide (p ∉ pr.breaches)
  (result.breaches.dedup.filter isNew).map (mkAlert now)

/-- Modelled from the spec: the Scheduler's repeated cycles (spec §4.7),
running `dispatch` once per cycle against the previous cycle's result and
concatenating the emitted alert records. -/
def runDispatch (now : Nat) : Option SpecAnalysisResult → List SpecAnalysisResult →
    List AlertRecord
  | _, [] => []
  | prev, r :: rs => dispatch now r prev ++ runDispatch (now + 1) (some r) rs

/-- Concrete failed response used to refute the universal form of the
"other failures" claim: a 500 whose body is not valid JSON, so
`response.json()` raises with the parser's message. -/
def resp500unparsable : Response :=
  { ok := false, status := 500, json := Except.error "Unexpected end of JSON input" }

/-- Concrete component state reachable while a re-poll is in flight after an
escalation-signal failure: `setLoading(true)` has run at the top of
`fetchData` while the previous error is still set. -/
def loadingWithAdminError : DashState :=
  { data := none, error := some adminMsg, loading := true }

/-!  Theorems. -/

/-- C9.  Every invocation of `fetchData` terminates with `loading = false`
(the `finally` block always runs); exactly when the try block succeeds —
`response.ok` and the body parsed — `data` is set to the parsed body and
`error` is reset to `null`; on any failure the previous `data` is retained
and the error message recorded. -/
theorem fetchData_state_invariants (r : Response) (s : DashState) :
    (fetchData r s).loading = false ∧
    (∀ b, fetchCaught r = Except.ok b →
      (fetchData r s).data = some b ∧ (fetchData r s).error = none) ∧
    (∀ m, fetchCaught r = Except.error m →
      (fetchData r s).data = s.data ∧ (fetchData r s).error = some m) := by
  refine ⟨?_, ?_, ?_⟩
  · cases h : fetchCaught r <;> simp [fetchData, h]
  · intro b hb
    simp [fetchData, hb]
  · intro m hm
    simp [fetchData, hm]

/-- C8.  A `500` response whose body is not valid JSON makes the awaited
`response.json()` inside the status check throw before either intended
message is chosen: the displayed error is the parse exception's message,
which is neither the escalation message nor the generic one, and `loading`
still ends `false`. -/
theorem fetchData_500_unparsable (r : Response) (s : DashState) (m : String)
    (hok : r.ok = false) (hst : r.status = 500) (hjson : r.json = Except.error m)
    (hm1 : m ≠ adminMsg) (hm2 : m ≠ fetchFailMsg) :
    (fetchData r s).error = some m ∧
    (fetchData r s).error ≠ some adminMsg ∧
    (fetchData r s).error ≠ some fetchFailMsg ∧
    (fetchData r s).loading = false := by
  have herr : (fetchData r s).error = some m := by
    simp [fetchData, fetchCaught, hok, hst, hjson]
  refine ⟨herr, ?_, ?_, by simp [fetchData, fetchCaught, hok, hst, hjson]⟩ <;>
    rw [herr] <;> simp [hm1, hm2]

/-- Witness for C8 at a concrete unparsable 500 response. -/
theorem fetchData_500_unparsable_witness :
    (fetchData { ok := false, status := 500, json := Except.error "Unexpected token <" }
        dashInit).error = some "Unexpected token <" :=
  (fetchData_500_unparsable
      { ok := false, status := 500, json := Except.error "Unexpected token <" }
      dashInit "Unexpected token <" rfl rfl rfl (by decide) (by decide)).1

/-- C1.  For a non-ok response to `GET /api/current`, `fetchData` surfaces
the escalation signal — error message "Administrative privileges required" —
if and only if the status is 401, or the status is 500 and the parsed JSON
body's `suggest_admin` field is truthy; both conditions throw the identical
message, so HTTP 401 and HTTP 500-with-`suggest_admin` are one and the same
user-facing condition.  The side condition says only that a JSON parse
exception's message is not itself the escalation message. -/
theorem fetchData_admin_signal_iff (r : Response) (s : DashState)
    (hok : r.ok = false)
    (hparse : ∀ m, r.json = Except.error m → m ≠ adminMsg) :
    ((fetchData r s).error = some adminMsg) ↔
      (r.status = 401 ∨
        (r.status = 500 ∧ ∃ b, r.json = Except.ok b ∧ b.suggest_admin = true)) := by
  have hne : fetchFailMsg ≠ adminMsg := by decide
  by_cases h401 : r.status = 401
  · simp [fetchData, fetchCaught, hok, h401]
  · by_cases h500 : r.status = 500
    · cases hj : r.json with
      | error m =>
        have hm := hparse m hj
        simp [fetchData, fetchCaught, hok, h401, h500, hj, hm]
      | ok b =>
        by_cases hsug : b.suggest_admin
        · simp [fetchData, fetchCaught, hok, h401, h500, hj, hsug]
        · simp only [Bool.not_eq_true] at hsug
          simp [fetchData, fetchCaught, hok, h401, h500, hj, hsug, hne]
    · simp [fetchData, fetchCaught, hok, h401, h500, hne]

/-- Witness for C1 at a concrete 500 response carrying `suggest_admin`. -/
theorem fetchData_admin_signal_iff_witness :
    (fetchData
        { ok := false, status := 500,
          json := Except.ok
            { suggest_admin := true, system_info := none, metrics := [], analysis := none } }
        dashInit).error = some adminMsg :=
  (fetchData_admin_signal_iff
      { ok := false, status := 500,
        json := Except.ok
          { suggest_admin := true, system_info := none, metrics := [], analysis := none } }
      dashInit rfl (fun _ hm => Except.noConfusion hm)).mpr
    (Or.inr ⟨rfl,
      { suggest_admin := true, system_info := none, metrics := [], analysis := none },
      rfl, rfl⟩)

/-- C2.  One run of `handleRetryWithAdmin` sends exactly one request to
`/retry_with_admin`; a request to `/api/current` follows exactly when the
escalation response is ok (the separate re-poll step, via `fetchData`); when
it is not ok nothing further happens; when the escalation fetch throws, the
error state becomes "Failed to obtain administrative access".  The trace
shows the escalation request itself never issues the `/api/current` fetch —
re-polling is the explicit follow-up call. -/
theorem handleRetry_trace (retry : Except String RetryResponse) (cur : Response)
    (s : DashState) :
    (countReq Request.retryWithAdmin (handleRetryWithAdmin retry cur s).1 = 1) ∧
    ((Request.apiCurrent ∈ (handleRetryWithAdmin retry cur s).1) ↔
      (∃ r2, retry = Except.ok r2 ∧ r2.ok = true)) ∧
    (∀ m, retry = Except.error m →
      (handleRetryWithAdmin retry cur s).2 = { s with error := some retryFailMsg }) ∧
    (∀ r2, retry = Except.ok r2 → r2.ok = true →
      (handleRetryWithAdmin retry cur s).2 = fetchData cur s) ∧
    (∀ r2, retry = Except.ok r2 → r2.ok = false →
      (handleRetryWithAdmin retry cur s).2 = s) := by
  cases retry with
  | error m =>
    refine ⟨by simp [handleRetryWithAdmin, countReq], ?_, ?_, ?_, ?_⟩
    · simp [handleRetryWithAdmin]
    · intro m' _; simp [handleRetryWithAdmin]
    · intro r2 h; exact Except.noConfusion h
    · intro r2 h; exact Except.noConfusion h
  | ok r2 =>
    cases hok2 : r2.ok with
    | true =>
      refine ⟨by simp [handleRetryWithAdmin, fetchDataT, hok2, countReq], ?_, ?_, ?_, ?_⟩
      · simp [handleRetryWithAdmin, fetchDataT, hok2]
      · intro m h; exact Except.noConfusion h
      · intro r2' h _; injection h with h; subst h
        simp [handleRetryWithAdmin, fetchDataT, hok2]
      · intro r2' h hfalse; injection h with h; subst h
        rw [hok2] at hfalse; exact Bool.noConfusion hfalse
    | false =>
      refine ⟨by simp [handleRetryWithAdmin, hok2, countReq], ?_, ?_, ?_, ?_⟩
      · simp [handleRetryWithAdmin, hok2]
      · intro m h; exact Except.noConfusion h
      · intro r2' h htrue; injection h with h; subst h
        rw [hok2] at htrue; exact Bool.noConfusion htrue
      · intro r2' h _; injection h with h; subst h
        simp [handleRetryWithAdmin, hok2]

/-- C3 counterexample.  A non-ok response whose status is neither 401 nor a
500 with truthy `suggest_admin` — here a 500 with an unparsable body — does
not produce the error "Failed to fetch system data": the parse exception's
message is displayed instead. -/
theorem fetchFail_not_universal :
    resp500unparsable.ok = false ∧
    resp500unparsable.status ≠ 401 ∧
    (∀ b, resp500unparsable.json ≠ Except.ok b) ∧
    (fetchData resp500unparsable dashInit).error ≠ some fetchFailMsg := by
  refine ⟨rfl, by decide, fun b h => Except.noConfusion h, ?_⟩
  have : (fetchData resp500unparsable dashInit).error
      = some "Unexpected end of JSON input" := by
    simp [fetchData, fetchCaught, resp500unparsable]
  rw [this]
  simp [fetchFailMsg]

/-- C3 (amended).  For every non-ok response whose status is neither 401 nor
500-with-truthy-`suggest_admin`, and which — when the status is 500 — has a
body that parses as JSON, `fetchData` sets the error state to "Failed to
fetch system data"; no exception escapes the handler (`fetchData` is total)
and `loading` is `false` once the call completes.  In particular this covers
the 503-equivalent "not ready" response, whose body is never parsed. -/
theorem fetchFail_other_failures (r : Response) (s : DashState)
    (hok : r.ok = false) (h401 : r.status ≠ 401)
    (hsug : ∀ b, r.json = Except.ok b → b.suggest_admin = false)
    (hparse : r.status = 500 → ∀ m, r.json ≠ Except.error m) :
    (fetchData r s).error = some fetchFailMsg ∧ (fetchData r s).loading = false := by
  by_cases h500 : r.status = 500
  · cases hj : r.json with
    | error m => exact absurd hj (hparse h500 m)
    | ok b =>
      have hb := hsug b hj
      constructor <;> simp [fetchData, fetchCaught, hok, h401, h500, hj, hb]
  · constructor <;> simp [fetchData, fetchCaught, hok, h401, h500]

/-- Witness for the amended C3 at a concrete 503-equivalent "not ready"
response. -/
theorem fetchFail_other_failures_witness :
    (fetchData { ok := false, status := 503, json := Except.error "not ready" }
        dashInit).error = some fetchFailMsg :=
  (fetchFail_other_failures
      { ok := false, status := 503, json := Except.error "not ready" } dashInit rfl
      (by decide) (fun b h => Except.noConfusion h)
      (fun h => absurd h (by decide))).1

/-- C4.  After `SystemMonitor` mounts, a `/api/current` fetch starts exactly
at the mount instant and then every 5000 ms while mounted; once the
component unmounts, `clearInterval` cancels the interval and no further
fetch is ever scheduled. -/
theorem polling_schedule (mT uT t : Nat) :
    (fetchFires mT uT t = true ↔
      (t < uT ∧ (t = mT ∨ ∃ k, 1 ≤ k ∧ t = mT + 5000 * k))) ∧
    (uT ≤ t → fetchFires mT uT t = false) := by
  constructor
  · unfold fetchFires
    simp only [Bool.or_eq_true, Bool.and_eq_true, decide_eq_true_eq]
    constructor
    · intro h
      rcases h with ⟨heq, hlt⟩ | ⟨⟨hlt, hub⟩, hmod⟩
      · exact ⟨by omega, Or.inl heq⟩
      · exact ⟨hub, Or.inr ⟨(t - mT) / 5000, by omega, by omega⟩⟩
    · intro h
      obtain ⟨hub, hcase⟩ := h
      rcases hcase with heq | ⟨k, hk, heq⟩
      · exact Or.inl ⟨heq, by omega⟩
      · exact Or.inr ⟨⟨by omega, hub⟩, by omega⟩
  · intro h
    by_contra hf
    rw [Bool.not_eq_false] at hf
    unfold fetchFires at hf
    simp only [Bool.or_eq_true, Bool.and_eq_true, decide_eq_true_eq] at hf
    omega

/-- Helper: the retry button is never part of the success card's body. -/
theorem retryButton_not_mem_renderData (b : JsonBody) :
    RNode.retryButton ∉ renderData b := by
  cases hb : b.analysis with
  | none => simp [renderData, hb]
  | some a =>
    by_cases hw : a.warnings.length > 0 <;>
      simp [renderData, renderAnalysis, hb, hw]

/-- Helper: warning-text extraction distributes over list append. -/
theorem warningTexts_append (xs ys : List RNode) :
    warningTexts (xs ++ ys) = warningTexts xs ++ warningTexts ys := by
  simp [warningTexts, List.filterMap_append]

/-- Helper: the system-info block contributes no warning texts. -/
theorem warningTexts_heading_infoEntries (t : String) (l : List (String × String)) :
    warningTexts (RNode.heading t :: (l.map fun kv => RNode.infoEntry kv.1 kv.2)) = [] := by
  induction l with
  | nil => rfl
  | cons kv l ih => exact ih

/-- Helper: the rendered warning items carry exactly the warnings, in order. -/
theorem warningTexts_enumFrom (ws : List String) :
    ∀ start : Nat,
      warningTexts ((ws.enumFrom start).map fun p => RNode.warningItem p.1 p.2) = ws := by
  induction ws with
  | nil => intro _; rfl
  | cons w ws ih => intro start; exact congrArg (w :: ·) (ih (start + 1))

/-- C5.  In the success state the component renders the card body
`renderData`: it shows every key/value pair of `diagnostics.system_info` and
the `analysis.status` value; the rendered warning texts are exactly
`analysis.warnings` in the order received, with the warnings block present
exactly when the list is non-empty; and the output is independent of
`diagnostics.metrics`, which the component never reads. -/
theorem render_success_body (b : JsonBody) (a : Analysis) (ha : b.analysis = some a) :
    render { data := some b, error := none, loading := false } = renderData b ∧
    (∀ kv ∈ b.system_info.getD [], RNode.infoEntry kv.1 kv.2 ∈ renderData b) ∧
    RNode.statusLine a.status ∈ renderData b ∧
    warningTexts (renderData b) = a.warnings ∧
    ((RNode.warningsHeader ∈ renderData b) ↔ a.warnings ≠ []) ∧
    (∀ m, renderData (setMetrics b m) = renderData b) := by
  refine ⟨rfl, ?_, ?_, ?_, ?_, ?_⟩
  · intro kv hkv
    simp only [renderData, List.mem_append, List.mem_cons, List.mem_map]
    exact Or.inl (Or.inr ⟨kv, hkv, rfl⟩)
  · simp [renderData, ha, renderAnalysis]
  · by_cases hw : a.warnings.length > 0
    · simp only [renderData, ha, renderAnalysis, hw, if_true]
      rw [warningTexts_append, warningTexts_heading_infoEntries]
      rw [warningTexts_append]
      show [] ++ ([] ++ warningTexts
        (RNode.warningsHeader :: (a.warnings.enum.map fun p => RNode.warningItem p.1 p.2)))
        = a.warnings
      rw [List.nil_append, List.nil_append]
      exact warningTexts_enumFrom a.warnings 0
    · have hnil : a.warnings = [] := by
        rcases hws : a.warnings with _ | ⟨w, ws⟩
        · rfl
        · rw [hws] at hw; exact absurd (by simp) hw
      simp [warningTexts, renderData, ha, renderAnalysis, hnil]
  · by_cases hw : a.warnings.length > 0
    · simp [renderData, ha, renderAnalysis, hw]
      exact List.ne_nil_of_length_pos hw
    · simp [renderData, ha, renderAnalysis, hw]
      have : a.warnings.length = 0 := by omega
      exact List.length_eq_zero.mp this
  · intro m
    rfl

/-- Witness for C5 at a concrete successful response body. -/
theorem render_success_body_witness :
    RNode.statusLine "warning" ∈ renderData
      { suggest_admin := false, system_info := some [("os", "linux")],
        metrics := [("cpu", 95)],
        analysis := some { status := "warning", warnings := ["cpu high"] } } :=
  (render_success_body
      { suggest_admin := false, system_info := some [("os", "linux")],
        metrics := [("cpu", 95)],
        analysis := some { status := "warning", warnings := ["cpu high"] } }
      { status := "warning", warnings := ["cpu high"] } rfl).2.2.1

/-- C7 counterexample.  In the reachable state where a re-poll has set
`loading` back to `true` while the escalation error is still recorded, the
error state is non-null and contains "Administrative privileges", yet the
component shows the spinner and the retry button is not rendered: the claim's
if-and-only-if fails without the `loading = false` condition. -/
theorem retryButton_requires_not_loading :
    jsIncludes adminMsg "Administrative privileges" = true ∧
    loadingWithAdminError.error = some adminMsg ∧
    RNode.retryButton ∉ render loadingWithAdminError := by
  refine ⟨by decide, rfl, by decide⟩

/-- C7 (amended).  The "Retry with Admin Privileges" button is rendered if
and only if `loading` is false and the error state is non-null with a message
containing the substring "Administrative privileges"; and the polling path
(`fetchData`, used at mount, on the interval, and as the re-poll) never
requests `/retry_with_admin` — clicking the button, which runs
`handleRetryWithAdmin`, is the only client path to the escalation
endpoint. -/
theorem retryButton_iff (s : DashState) :
    ((RNode.retryButton ∈ render s) ↔
      (s.loading = false ∧ ∃ e, s.error = some e ∧
        jsIncludes e "Administrative privileges" = true)) ∧
    (∀ r st, Request.retryWithAdmin ∉ (fetchDataT r st).1) := by
  constructor
  · cases hl : s.loading with
    | true => simp [render, hl]
    | false =>
      cases he : s.error with
      | some e =>
        by_cases hi : jsIncludes e "Administrative privileges" = true
        · simp [render, hl, he, hi]
        · simp [render, hl, he, hi]
      | none =>
        cases hd : s.data with
        | some b =>
          simp [render, hl, he, hd]
          exact retryButton_not_mem_renderData b
        | none => simp [render, hl, he, hd]
  · intro r st h
    simp [fetchDataT] at h

/-- C10.  The static dashboard badges are red exactly when the displayed
value exceeds the hardcoded 80 — for CPU usage, memory used and per-disk
usage — independent of any `Configuration` thresholds: with a configured
`cpu_usage_max` of 90, a reading of 85 is still highlighted red. -/
theorem badges_hardcoded_80 (v : Int) (cfg : Configuration) :
    (cpuBadgeClass v = "bg-red-100 text-red-600" ↔ v > 80) ∧
    (memoryBadgeClass v = "bg-red-100 text-red-600" ↔ v > 80) ∧
    (diskBarClass v = "bg-red-500" ↔ v > 80) ∧
    (cfg.cpu_usage_max = 90 →
      cpuBadgeClass 85 = "bg-red-100 text-red-600" ∧ (85 : Int) < cfg.cpu_usage_max) := by
  refine ⟨?_, ?_, ?_, ?_⟩
  · constructor
    · intro h
      by_contra hgt
      rw [cpuBadgeClass, if_neg hgt] at h
      exact absurd h (by decide)
    · intro h; rw [cpuBadgeClass, if_pos h]
  · constructor
    · intro h
      by_contra hgt
      rw [memoryBadgeClass, if_neg hgt] at h
      exact absurd h (by decide)
    · intro h; rw [memoryBadgeClass, if_pos h]
  · constructor
    · intro h
      by_contra hgt
      rw [diskBarClass, if_neg hgt] at h
      exact absurd h (by decide)
    · intro h; rw [diskBarClass, if_pos h]
  · intro h
    refine ⟨by decide, ?_⟩
    rw [h]
    decide

/-- Helper: alert records built from pairs other than `p` never carry key `p`. -/
theorem mkAlert_filter_not_mem (now : Nat) (p : String × String) :
    ∀ l : List (String × String), p ∉ l →
      ((l.map (mkAlert now)).filter fun rec => decide (rec.dedup_key = p)) = [] := by
  intro l
  induction l with
  | nil => intro _; rfl
  | cons q l ih =>
    intro hp
    rw [List.map_cons, List.filter_cons]
    have hq : (decide ((mkAlert now q).dedup_key = p)) = false := by
      apply decide_eq_false
      intro h
      exact hp (by rw [← h]; exact List.mem_cons_self q l)
    rw [hq]
    simp only [Bool.false_eq_true, if_false]
    exact ih (fun hm => hp (List.mem_cons_of_mem q hm))

/-- Helper: over a duplicate-free pair list, at most one record carries a
given dedup key. -/
theorem mkAlert_filter_len_le_one (now : Nat) (p : String × String) :
    ∀ l : List (String × String), l.Nodup →
      ((l.map (mkAlert now)).filter fun rec => decide (rec.dedup_key = p)).length ≤ 1 := by
  intro l
  induction l with
  | nil => intro _; simp
  | cons q l ih =>
    intro hnd
    rcases List.nodup_cons.mp hnd with ⟨hq, hl⟩
    rw [List.map_cons, List.filter_cons]
    by_cases hqp : (mkAlert now q).dedup_key = p
    · rw [if_pos (by simp [hqp])]
      have hpl : p ∉ l := by
        have hqp2 : q = p := hqp
        rw [← hqp2]; exact hq
      rw [mkAlert_filter_not_mem now p l hpl]
      simp
    · rw [if_neg (by simp [hqp])]
      exact ih hl

/-- Helper: a pair already breached in `previous` is suppressed by one
dispatch. -/
theorem dispatch_no_prev_key (now : Nat) (result : SpecAnalysisResult)
    (pr : SpecAnalysisResult) (p : String × String) (hp : p ∈ pr.breaches) :
    ∀ rec ∈ dispatch now result (some pr), rec.dedup_key ≠ p := by
  intro rec hrec
  simp only [dispatch, List.mem_map, List.mem_filter] at hrec
  obtain ⟨q, ⟨hqmem, hqnew⟩, hmk⟩ := hrec
  intro hkey
  have hq : q = p := by rw [← hmk] at hkey; exact hkey
  rw [hq] at hqnew
  exact (of_decide_eq_true hqnew) hp

/-- Helper: across a run of cycles whose results all still contain the
breach, no record for it is ever emitted when it was already breached before
the run. -/
theorem runDispatch_no_key (p : String × String) :
    ∀ (cycles : List SpecAnalysisResult) (now : Nat) (pr : SpecAnalysisResult),
      p ∈ pr.breaches → (∀ r ∈ cycles, p ∈ r.breaches) →
      ∀ rec ∈ runDispatch now (some pr) cycles, rec.dedup_key ≠ p := by
  intro cycles
  induction cycles with
  | nil => intro now pr _ _ rec hrec; exact absurd hrec (List.not_mem_nil rec)
  | cons c cs ih =>
    intro now pr hp hall rec hrec
    simp only [runDispatch] at hrec
    rcases List.mem_append.mp hrec with h | h
    · exact dispatch_no_prev_key now c pr p hp rec h
    · exact ih (now + 1) c (hall c (List.mem_cons_self c cs))
        (fun r hr => hall r (List.mem_cons_of_mem c hr)) rec h

/-- Helper: filtering for a key absent from every record gives nothing. -/
theorem filter_key_nil_of_no_key (p : String × String) (l : List AlertRecord)
    (h : ∀ rec ∈ l, rec.dedup_key ≠ p) :
    (l.filter fun rec => decide (rec.dedup_key = p)) = [] := by
  induction l with
  | nil => rfl
  | cons rec l ih =>
    rw [List.filter_cons, if_neg (by simp [h rec (List.mem_cons_self rec l)])]
    exact ih (fun r hr => h r (List.mem_cons_of_mem rec hr))

/-- Helper: one dispatch emits at most one record per dedup key (the emitted
records are deduplicated). -/
theorem dispatch_filter_len_le_one (now : Nat) (result : SpecAnalysisResult)
    (previous : Option SpecAnalysisResult) (p : String × String) :
    ((dispatch now result previous).filter fun rec => decide (rec.dedup_key = p)).length ≤ 1 := by
  simp only [dispatch]
  apply mkAlert_filter_len_le_one
  exact (List.nodup_dedup _).filter _

/-- C6.  Edge-triggered alerting: `dispatch result previous` emits no
`AlertRecord` for any `(category, severity)` pair already warning/critical in
`previous`; across consecutive cycles with a stable breach, nothing further
is emitted for the pair while it persists, so at most one `AlertRecord` is
emitted for it until it clears and re-breaches. -/
theorem dispatch_edge_triggered (now : Nat) (result previous : SpecAnalysisResult)
    (p : String × String) (hp : p ∈ previous.breaches) :
    (∀ rec ∈ dispatch now result (some previous), rec.dedup_key ≠ p) ∧
    (∀ cycles : List SpecAnalysisResult, (∀ r ∈ cycles, p ∈ r.breaches) →
      ∀ rec ∈ runDispatch now (some previous) cycles, rec.dedup_key ≠ p) ∧
    (∀ (prev0 : Option SpecAnalysisResult) (c : SpecAnalysisResult)
        (cycles : List SpecAnalysisResult),
      p ∈ c.breaches → (∀ r ∈ cycles, p ∈ r.breaches) →
      ((runDispatch now prev0 (c :: cycles)).filter fun rec =>
        decide (rec.dedup_key = p)).length ≤ 1) := by
  refine ⟨dispatch_no_prev_key now result previous p hp, ?_, ?_⟩
  · intro cycles hall
    exact runDispatch_no_key p cycles now previous hp hall
  · intro prev0 c cycles hc hall
    simp only [runDispatch, List.filter_append, List.length_append]
    have h2 : ((runDispatch (now + 1) (some c) cycles).filter fun rec =>
        decide (rec.dedup_key = p)) = [] :=
      filter_key_nil_of_no_key p _ (runDispatch_no_key p cycles (now + 1) c hc hall)
    rw [h2]
    simpa using dispatch_filter_len_le_one now c prev0 p

/-- Witness for C6: a stable breach over one further cycle after it already
fired emits at most one record in total. -/
theorem dispatch_edge_triggered_witness :
    ((runDispatch 0 (some { breaches := [("cpu", "warning")] })
        [{ breaches := [("cpu", "warning")] }]).filter fun rec =>
      decide (rec.dedup_key = ("cpu", "warning"))).length ≤ 1 :=
  (dispatch_edge_triggered 0 { breaches := [("cpu", "warning")] }
      { breaches := [("cpu", "warning")] } ("cpu", "warning") (by simp)).2.2
    (some { breaches := [("cpu", "warning")] }) { breaches := [("cpu", "warning")] } []
    (by simp) (by simp)

end SystemSentinel
